import Mathlib

/-!
Verification of the yt-transcript-service repository
(`src/api/youtube_transcript.py`) against its natural-language
specification.

The single Python source file has three functions:

* `extract_video_id(url)` — a regex-based resolver of an 11-character
  YouTube video id from a raw input string;
* `get_transcript(youtube_url)` — queries an external captioning provider
  and applies a prioritized fallback policy, returning a result dict;
* `handler(event, context)` — the serverless HTTP adapter.

This file shallowly embeds those functions.  Python dicts returned as
results are modelled as association lists of JSON values; the external
captioning provider and the external `json` module are modelled as
explicit collaborators (a `Provider` structure and a parse function
parameter), so every theorem quantifies over all of their behaviours.
-/

set_option maxRecDepth 8192

/-! ### The ID resolver: embedding of `extract_video_id` (lines 7-19)

The Python code searches the input with
`(?:youtube\.com\/watch\?v=|youtu\.be\/|youtube\.com\/embed\/)([a-zA-Z0-9_-]{11})`
and, failing that, matches the whole input against
`^[a-zA-Z0-9_-]{11}$`.  `re.search` scans left to right; at each
position the alternation is tried in order.  Without `re.MULTILINE`,
`$` matches at the end of the string or just before a single trailing
newline.  -/

/-- Membership in the character class `[a-zA-Z0-9_-]` of the regex. -/
def allowedChar (c : Char) : Bool :=
  c.isAlpha || c.isDigit || c == '_' || c == '-'

/-- The first alternative of the regex alternation. -/
def watchShape : List Char := "youtube.com/watch?v=".data

/-- The second alternative of the regex alternation. -/
def shortShape : List Char := "youtu.be/".data

/-- The third alternative of the regex alternation. -/
def embedShape : List Char := "youtube.com/embed/".data

/-- The three literal URL shapes of the first regex, in alternation order. -/
def urlShapes : List (List Char) := [watchShape, shortShape, embedShape]

/-- Whether `cs` begins with the characters `shape` (literal regex match). -/
def startsWithChars : List Char → List Char → Bool
  | [], _ => true
  | _ :: _, [] => false
  | a :: as, b :: bs => a == b && startsWithChars as bs

/-- Matching one alternative of the first regex at the front of `cs`:
the shape must occur literally, immediately followed by eleven characters
of the allowed alphabet, which form the captured group. -/
def shapeTokenAt (shape cs : List Char) : Option (List Char) :=
  if startsWithChars shape cs then
    if ((cs.drop shape.length).take 11).length = 11 ∧
        ((cs.drop shape.length).take 11).all allowedChar then
      some ((cs.drop shape.length).take 11)
    else none
  else none

/-- Matching the whole first regex at the front of `cs`: the alternation
is tried in the order written in the pattern. -/
def matchShapesAt (cs : List Char) : Option (List Char) :=
  match shapeTokenAt watchShape cs with
  | some tok => some tok
  | none =>
    match shapeTokenAt shortShape cs with
    | some tok => some tok
    | none => shapeTokenAt embedShape cs

/-- The `re.search` scan of the first regex: the match at the leftmost
matching position wins. -/
def searchShapes : List Char → Option (List Char)
  | [] => none
  | c :: cs =>
    match matchShapesAt (c :: cs) with
    | some tok => some tok
    | none => searchShapes cs

/-- The second regex `^[a-zA-Z0-9_-]{11}$`, applied to the whole input.
Without `re.MULTILINE`, `$` matches at the end of the string or just
before a newline that ends the string, so the pattern also matches an
eleven-character id followed by one trailing `'\n'`; `group(0)` is the
eleven matched characters in both cases. -/
def matchBareId (cs : List Char) : Option (List Char) :=
  if cs.length = 11 ∧ cs.all allowedChar then some cs
  else if (cs.take 11).all allowedChar ∧ cs.drop 11 = ['\n'] then
    some (cs.take 11)
  else none

/-- Embedding of `extract_video_id` (lines 7-19): the patterns are tried
in order over the whole input; the first pattern yields `group(1)`, the
second has no group and yields `group(0)`. -/
def extract_video_id (url : String) : Option String :=
  match searchShapes url.data with
  | some tok => some (String.mk tok)
  | none => (matchBareId url.data).map String.mk

/-! ### The transcript provider, an external collaborator

`YouTubeTranscriptApi.list_transcripts(video_id)` either raises (modelled
as `Except.error` carrying `str(e)`) or returns a transcript list object.
The code uses exactly three of its operations:
`find_manually_created_transcript([lang])` (raises `NoTranscriptFound`
when absent, modelled as `none`), `find_generated_transcript(['en'])`,
and iteration (`list(transcript_list)`).  Each located track exposes its
`language_code` and a `fetch()` that either raises (modelled as
`Except.error` carrying the exception text) or returns the list of timed
segments, of which the code only ever uses the text parts.  -/

/-- One caption track of the provider: its reported language code and the
outcome of `fetch()` (segment texts, or the raised exception's text). -/
structure TranscriptTrack where
  language_code : String
  fetch : Except String (List String)

/-- The object returned by a successful `list_transcripts` call. -/
structure TranscriptListing where
  findManual : String → Option TranscriptTrack
  findGeneratedEn : Option TranscriptTrack
  tracks : List TranscriptTrack

/-- The external captioning provider: `list_transcripts` by video id. -/
structure Provider where
  list_transcripts : String → Except String TranscriptListing

/-! ### Embedding of `get_transcript` (lines 21-102) -/

/-- One iteration of the manual-transcript loop body for a single
language: locating and fetching, with both failure modes swallowed by the
bare `except: continue`. -/
def manualAttempt (tl : TranscriptListing) (lang : String) : Option (List String) :=
  match tl.findManual lang with
  | none => none
  | some t =>
    match t.fetch with
    | .error _ => none
    | .ok segs => some segs

/-- The preferred-language list of the manual loop (line 44). -/
def manualLangs : List String := ["en", "en-US", "en-GB"]

/-- The `for lang_code in ['en', 'en-US', 'en-GB']` loop (lines 44-51):
the first language whose transcript is located and fetched breaks the
loop, recording the fetched segments and the language code; any raised
error just moves on to the next language. -/
def tryManualLoop (tl : TranscriptListing) : List String → Option (List String × String)
  | [] => none
  | lang :: rest =>
    match tl.findManual lang with
    | none => tryManualLoop tl rest
    | some t =>
      match t.fetch with
      | .error _ => tryManualLoop tl rest
      | .ok segs => some (segs, lang)

/-- The last-resort branch (lines 61-68): take the first transcript in
enumeration order; with an empty enumeration, `Exception("No transcripts
available")` is raised; an error raised by this `fetch()` propagates. -/
def lastResort (tl : TranscriptListing) : Except String (List String × String) :=
  match tl.tracks with
  | [] => .error "No transcripts available"
  | t :: _ =>
    match t.fetch with
    | .error msg => .error msg
    | .ok segs => .ok (segs, t.language_code)

/-- The auto-generated branch (lines 54-68): try the generated English
transcript; if locating or fetching it raises, the `except:` falls into
the last resort. -/
def autoBranch (tl : TranscriptListing) : Except String (List String × String) :=
  match tl.findGeneratedEn with
  | none => lastResort tl
  | some t =>
    match t.fetch with
    | .error _ => lastResort tl
    | .ok segs => .ok (segs, "en (auto-generated)")

/-- The whole inner `try` block (lines 42-68), producing either the pair
`(transcript, transcript_language)` or the exception caught at line 70.
Note the Python truthiness test `if not transcript:` at line 54: a manual
transcript that fetched to an empty segment list is falsy, so the code
proceeds to the auto-generated branch in that case as well. -/
def runChain (tl : TranscriptListing) : Except String (List String × String) :=
  match tryManualLoop tl manualLangs with
  | none => autoBranch tl
  | some (segs, lang) =>
    if segs.isEmpty then autoBranch tl else .ok (segs, lang)

/-! ### Result dicts as JSON values

`get_transcript` returns a Python dict that `handler` serializes with
`json.dumps`; requests are parsed with `json.loads`.  JSON values are
modelled by `JsonVal` (numbers as integers suffice here: the only number
the code produces is a word count), and the dicts by association lists
in insertion order. -/

inductive JsonVal where
  | null
  | bool (b : Bool)
  | num (n : Int)
  | str (s : String)
  | arr (elems : List JsonVal)
  | obj (fields : List (String × JsonVal))

/-- Python `dict.get(k)` on a dict built from an association list in
insertion order with later duplicates overriding earlier ones, as
`json.loads` does. -/
def objGet (fields : List (String × JsonVal)) (k : String) : Option JsonVal :=
  match fields.reverse.find? (fun kv => kv.1 == k) with
  | some kv => some kv.2
  | none => none

/-- Python `k in dict` for the modelled dicts. -/
def hasKey (fields : List (String × JsonVal)) (k : String) : Bool :=
  fields.any (fun kv => kv.1 == k)

/-- Python truthiness of a value decoded from JSON. -/
def jsonTruthy : JsonVal → Bool
  | .null => false
  | .bool b => b
  | .num n => n != 0
  | .str s => s != ""
  | .arr elems => !elems.isEmpty
  | .obj fields => !fields.isEmpty

/-! ### Formatting and word count -/

/-- Modelled from the external library: `TextFormatter.format_transcript`
joins the text of the segments with newlines (the spec's "concatenate all
caption segments into a single plain-text blob", segment order
preserved). -/
def formatTranscript (segs : List String) : String :=
  String.intercalate "\n" segs

/-- The ASCII whitespace characters recognized by Python `str.split()`
with no arguments (the code's inputs are caption text; the additional
Unicode space characters Python also splits on are not modelled). -/
def pyIsSpace (c : Char) : Bool :=
  c == ' ' || c == '\t' || c == '\n' || c == '\r' || c == '\x0b' || c == '\x0c'

/-- Accumulator pass for `pySplit`: `acc` holds the reversed characters
of the token currently being read. -/
def pySplitAux : List Char → List Char → List String
  | [], acc => if acc.isEmpty then [] else [String.mk acc.reverse]
  | c :: cs, acc =>
    if pyIsSpace c then
      if acc.isEmpty then pySplitAux cs []
      else String.mk acc.reverse :: pySplitAux cs []
    else pySplitAux cs (c :: acc)

/-- Python `str.split()` with no arguments: the maximal runs of
non-whitespace characters, in order; no empty pieces are produced. -/
def pySplit (s : String) : List String :=
  pySplitAux s.data []

/-! ### The result dicts of `get_transcript` -/

/-- The failure dict shape (lines 26-30, 70-74, 96-102): key order as in
the source. -/
def failureFields (msg : String) (vid : JsonVal) : List (String × JsonVal) :=
  [("success", .bool false), ("error", .str msg), ("videoId", vid)]

/-- The success dict shape (lines 86-93): key order as in the source;
`videoTitle` is always the placeholder embedding the id, and `wordCount`
is `len(formatted_text.split())`. -/
def successFields (vid : String) (segs : List String) (lang : String) :
    List (String × JsonVal) :=
  [("success", .bool true),
   ("transcript", .str (formatTranscript segs)),
   ("videoTitle", .str ("YouTube Video " ++ vid)),
   ("videoId", .str vid),
   ("language", .str lang),
   ("wordCount", .num ((pySplit (formatTranscript segs)).length : Int))]

/-- Embedding of `get_transcript` (lines 21-102).  The outer `except`
(lines 95-102) catches the error of `list_transcripts` (at which point
`video_id` is in `locals()`); the inner `except` (lines 70-74) prefixes
the caught exception's text with `"Could not fetch transcript: "`.  The
Python test `if not video_id:` is a truthiness test, so an empty string
id would also be rejected. -/
def get_transcript (p : Provider) (youtube_url : String) : List (String × JsonVal) :=
  match extract_video_id youtube_url with
  | none => failureFields "Invalid YouTube URL or video ID" .null
  | some video_id =>
    if video_id = "" then failureFields "Invalid YouTube URL or video ID" .null
    else
      match p.list_transcripts video_id with
      | .error e => failureFields e (.str video_id)
      | .ok tl =>
        match runChain tl with
        | .error msg =>
            failureFields ("Could not fetch transcript: " ++ msg) (.str video_id)
        | .ok (segs, lang) => successFields video_id segs lang

/-! ### Embedding of `handler` (lines 104-160)

The hosting platform's event is modelled by its two fields the code
reads; `json.loads` is modelled by an arbitrary parse function handed to
the handler (`none` standing for a raised `JSONDecodeError`), so theorems
about the handler hold for every behaviour of the external `json`
module.  A response carries the status code, the header dict and the
dict passed to `json.dumps`. -/

structure Event where
  httpMethod : Option String
  body : Option String

structure Response where
  statusCode : Nat
  headers : List (String × String)
  body : JsonVal

/-- The fixed `cors_headers` dict (lines 108-112). -/
def corsHeaders : List (String × String) :=
  [("Access-Control-Allow-Origin", "*"),
   ("Access-Control-Allow-Methods", "POST, OPTIONS"),
   ("Access-Control-Allow-Headers", "Content-Type")]

/-- The entry `{**cors_headers, "Content-Type": "application/json"}` adds. -/
def contentTypeJson : String × String := ("Content-Type", "application/json")

/-- The 400 response for a missing or falsy `youtubeUrl` (lines 135-140). -/
def badRequestResp : Response :=
  { statusCode := 400
    headers := corsHeaders ++ [contentTypeJson]
    body := .obj [("error", .str "youtubeUrl is required")] }

/-- The outermost 500 response (lines 154-160). -/
def internalErrorResp : Response :=
  { statusCode := 500
    headers := corsHeaders ++ [contentTypeJson]
    body := .obj [("error", .str "Internal server error")] }

/-- The value of `body.get("youtubeUrl")` is passed to `get_transcript`
unchecked.  For a non-string truthy value, `re.search` inside
`extract_video_id` raises `TypeError`, which `get_transcript`'s own outer
`except` converts to a failure dict carrying the exception's text
(`video_id` is not yet in `locals()`, so `videoId` is `None`). -/
def getTranscriptOfValue (p : Provider) (v : JsonVal) : List (String × JsonVal) :=
  match v with
  | .str s => get_transcript p s
  | _ => failureFields "expected string or bytes-like object" .null

/-- Embedding of `handler` (lines 104-160).  `jsonLoads` models the
external `json.loads`; `event.get("body", "\x7b\x7d")` supplies an empty
JSON object when the body key is absent.  `body.get` on a decoded
non-dict value raises `AttributeError`, caught by the outermost `except`
as a 500. -/
def handler (p : Provider) (jsonLoads : String → Option JsonVal) (event : Event) :
    Response :=
  if event.httpMethod = some "OPTIONS" then
    { statusCode := 200
      headers := corsHeaders
      body := .obj [("message", .str "CORS preflight")] }
  else if event.httpMethod ≠ some "POST" then
    { statusCode := 405
      headers := corsHeaders ++ [contentTypeJson]
      body := .obj [("error", .str "Method not allowed")] }
  else
    match jsonLoads (event.body.getD "\x7b\x7d") with
    | none => internalErrorResp
    | some (.obj fields) =>
      match objGet fields "youtubeUrl" with
      | none => badRequestResp
      | some v =>
        if jsonTruthy v then
          let result := getTranscriptOfValue p v
          { statusCode :=
              if (match objGet result "success" with
                  | some w => jsonTruthy w
                  | none => false) then 200 else 400
            headers := corsHeaders ++ [contentTypeJson]
            body := .obj result }
        else badRequestResp
    | some _ => internalErrorResp

/-! ### Concrete provider states used in closed evaluations -/

/-- A listing whose enumeration is empty and which locates nothing. -/
def emptyListing : TranscriptListing :=
  { findManual := fun _ => none, findGeneratedEn := none, tracks := [] }

/-- A provider whose listing call succeeds with the empty listing. -/
def emptyProvider : Provider :=
  { list_transcripts := fun _ => .ok emptyListing }

/-- A manually authored `en-GB` track that fetches to an empty segment
list. -/
def gbEmptyTrack : TranscriptTrack := { language_code := "en-GB", fetch := .ok [] }

/-- An auto-generated English track with one segment. -/
def autoEnTrack : TranscriptTrack :=
  { language_code := "en", fetch := .ok ["hello world from auto"] }

/-- A listing offering a manually authored `en-GB` transcript (which
fetches to an empty segment list) and an auto-generated English one. -/
def gbEmptyListing : TranscriptListing :=
  { findManual := fun l => if l = "en-GB" then some gbEmptyTrack else none
    findGeneratedEn := some autoEnTrack
    tracks := [gbEmptyTrack] }

/-- Provider for `gbEmptyListing`. -/
def gbEmptyProvider : Provider :=
  { list_transcripts := fun _ => .ok gbEmptyListing }

/-- A manually authored `en-GB` track with one nonempty segment. -/
def gbTrack : TranscriptTrack :=
  { language_code := "en-GB", fetch := .ok ["hello world"] }

/-- A listing offering only the manually authored `en-GB` transcript. -/
def gbListing : TranscriptListing :=
  { findManual := fun l => if l = "en-GB" then some gbTrack else none
    findGeneratedEn := none
    tracks := [gbTrack] }

/-- Provider for `gbListing`. -/
def gbProvider : Provider :=
  { list_transcripts := fun _ => .ok gbListing }

/-- A listing exposing only the auto-generated English transcript. -/
def autoOnlyListing : TranscriptListing :=
  { findManual := fun _ => none
    findGeneratedEn := some autoEnTrack
    tracks := [autoEnTrack] }

/-- Provider for `autoOnlyListing`. -/
def autoOnlyProvider : Provider :=
  { list_transcripts := fun _ => .ok autoOnlyListing }

/-- A French track, the only one of `frListing`. -/
def frTrack : TranscriptTrack :=
  { language_code := "fr", fetch := .ok ["bonjour le monde"] }

/-- A listing with no manual or generated English transcript, only a
French one in enumeration order. -/
def frListing : TranscriptListing :=
  { findManual := fun _ => none
    findGeneratedEn := none
    tracks := [frTrack] }

/-- Provider for `frListing`. -/
def frProvider : Provider :=
  { list_transcripts := fun _ => .ok frListing }

/-! ### Lemmas about the shape search -/

/-- Being one of the three URL shapes of the regex alternation. -/
def isUrlShape (shape : List Char) : Prop :=
  shape = watchShape ∨ shape = shortShape ∨ shape = embedShape

lemma startsWithChars_exists : ∀ shape cs : List Char,
    startsWithChars shape cs = true → ∃ rest, cs = shape ++ rest := by
  intro shape
  induction shape with
  | nil => exact fun cs _ => ⟨cs, rfl⟩
  | cons a as ih =>
    intro cs h
    cases cs with
    | nil => simp [startsWithChars] at h
    | cons b bs =>
      rw [startsWithChars, Bool.and_eq_true, beq_iff_eq] at h
      obtain ⟨rest, hr⟩ := ih bs h.2
      exact ⟨rest, by rw [h.1, hr]; rfl⟩

lemma startsWithChars_append (shape rest : List Char) :
    startsWithChars shape (shape ++ rest) = true := by
  induction shape with
  | nil => rfl
  | cons a as ih => simp [startsWithChars, ih]

lemma shapeTokenAt_eq_some {shape cs tok : List Char}
    (h : shapeTokenAt shape cs = some tok) :
    tok.length = 11 ∧ tok.all allowedChar = true ∧ ∃ rest, cs = shape ++ tok ++ rest := by
  unfold shapeTokenAt at h
  split at h
  case isFalse => exact absurd h (by simp)
  case isTrue hsw =>
    split at h
    case isFalse => exact absurd h (by simp)
    case isTrue hc =>
      injection h with h
      obtain ⟨rest, hr⟩ := startsWithChars_exists _ _ hsw
      subst hr
      rw [List.drop_left] at h hc
      refine ⟨h ▸ hc.1, h ▸ hc.2, rest.drop 11, ?_⟩
      rw [← h, List.append_assoc, List.take_append_drop]

lemma shapeTokenAt_append_isSome (shape b : List Char)
    (hlen : 11 ≤ b.length) (hall : (b.take 11).all allowedChar = true) :
    (shapeTokenAt shape (shape ++ b)).isSome := by
  unfold shapeTokenAt
  rw [if_pos (startsWithChars_append shape b), List.drop_left,
    if_pos ⟨by rw [List.length_take]; omega, hall⟩]
  rfl

lemma matchShapesAt_eq_some {cs tok : List Char}
    (h : matchShapesAt cs = some tok) :
    tok.length = 11 ∧ tok.all allowedChar = true ∧
      ∃ shape rest, isUrlShape shape ∧ cs = shape ++ tok ++ rest := by
  unfold matchShapesAt at h
  cases h1 : shapeTokenAt watchShape cs with
  | some t =>
    rw [h1] at h; injection h with h; subst h
    obtain ⟨hl, ha, rest, hr⟩ := shapeTokenAt_eq_some h1
    exact ⟨hl, ha, watchShape, rest, Or.inl rfl, hr⟩
  | none =>
    rw [h1] at h
    cases h2 : shapeTokenAt shortShape cs with
    | some t =>
      rw [h2] at h; injection h with h; subst h
      obtain ⟨hl, ha, rest, hr⟩ := shapeTokenAt_eq_some h2
      exact ⟨hl, ha, shortShape, rest, Or.inr (Or.inl rfl), hr⟩
    | none =>
      rw [h2] at h
      obtain ⟨hl, ha, rest, hr⟩ := shapeTokenAt_eq_some h
      exact ⟨hl, ha, embedShape, rest, Or.inr (Or.inr rfl), hr⟩

lemma matchShapesAt_isSome {cs : List Char} {shape : List Char}
    (hshape : isUrlShape shape) (b : List Char) (hcs : cs = shape ++ b)
    (hlen : 11 ≤ b.length) (hall : (b.take 11).all allowedChar = true) :
    (matchShapesAt cs).isSome := by
  subst hcs
  unfold matchShapesAt
  rcases hshape with h | h | h <;> subst h
  · cases hw : shapeTokenAt watchShape (watchShape ++ b) with
    | some t => rfl
    | none =>
      exact absurd hw (by
        have := shapeTokenAt_append_isSome watchShape b hlen hall
        intro hc; rw [hc] at this; exact absurd this (by simp))
  · cases hw : shapeTokenAt watchShape (shortShape ++ b) with
    | some t => rfl
    | none =>
      cases hs : shapeTokenAt shortShape (shortShape ++ b) with
      | some t => rfl
      | none =>
        exact absurd hs (by
          have := shapeTokenAt_append_isSome shortShape b hlen hall
          intro hc; rw [hc] at this; exact absurd this (by simp))
  · cases hw : shapeTokenAt watchShape (embedShape ++ b) with
    | some t => rfl
    | none =>
      cases hs : shapeTokenAt shortShape (embedShape ++ b) with
      | some t => rfl
      | none =>
        cases he : shapeTokenAt embedShape (embedShape ++ b) with
        | some t => rfl
        | none =>
          exact absurd he (by
            have := shapeTokenAt_append_isSome embedShape b hlen hall
            intro hc; rw [hc] at this; exact absurd this (by simp))

lemma matchShapesAt_nil : matchShapesAt [] = none := by decide

lemma searchShapes_eq_some : ∀ {cs tok : List Char},
    searchShapes cs = some tok →
    tok.length = 11 ∧ tok.all allowedChar = true ∧
      ∃ a shape rest, isUrlShape shape ∧ cs = a ++ shape ++ tok ++ rest := by
  intro cs
  induction cs with
  | nil => intro tok h; exact absurd h (by simp [searchShapes])
  | cons c cs ih =>
    intro tok h
    rw [searchShapes] at h
    cases hm : matchShapesAt (c :: cs) with
    | some t =>
      rw [hm] at h; injection h with h; subst h
      obtain ⟨hl, ha, shape, rest, hsh, hr⟩ := matchShapesAt_eq_some hm
      exact ⟨hl, ha, [], shape, rest, hsh, by rw [hr]; rfl⟩
    | none =>
      rw [hm] at h
      obtain ⟨hl, ha, a, shape, rest, hsh, hr⟩ := ih h
      exact ⟨hl, ha, c :: a, shape, rest, hsh, by rw [hr]; rfl⟩

lemma searchShapes_append_isSome : ∀ (a t : List Char),
    (matchShapesAt t).isSome → (searchShapes (a ++ t)).isSome := by
  intro a
  induction a with
  | nil =>
    intro t h
    cases t with
    | nil => rw [matchShapesAt_nil] at h; exact absurd h (by simp)
    | cons c cs =>
      show (searchShapes (c :: cs)).isSome
      rw [searchShapes]
      cases hm : matchShapesAt (c :: cs) with
      | some tok => rfl
      | none => rw [hm] at h; exact absurd h (by simp)
  | cons x a' ih =>
    intro t h
    show (searchShapes (x :: (a' ++ t))).isSome
    rw [searchShapes]
    cases hm : matchShapesAt (x :: (a' ++ t)) with
    | some tok => rfl
    | none => exact ih t h

lemma searchShapes_eq_none : ∀ cs : List Char,
    (∀ i, matchShapesAt (cs.drop i) = none) → searchShapes cs = none := by
  intro cs
  induction cs with
  | nil => intro _; rfl
  | cons c cs ih =>
    intro h
    have h0 : matchShapesAt (c :: cs) = none := h 0
    rw [searchShapes, h0]
    exact ih fun i => h (i + 1)

/-! ### The resolver's contract, in the words of the spec

The following predicates restate, claim-side, "contains one of the known
URL shapes followed by 11 allowed characters" and "is itself exactly 11
allowed characters", to be compared against `extract_video_id`. -/

/-- Claim-side condition: one regex alternative matches at the front of
`cs`, with its eleven-character capture. -/
def shapeTokenCond (shape cs : List Char) : Bool :=
  startsWithChars shape cs &&
  ((cs.drop shape.length).take 11).length == 11 &&
  ((cs.drop shape.length).take 11).all allowedChar

/-- Claim-side condition: the input contains one of the known URL shapes
followed by eleven characters of the allowed alphabet, at some
position. -/
def specHasShape (s : String) : Bool :=
  (List.range s.data.length).any fun i =>
    shapeTokenCond watchShape (s.data.drop i) ||
    shapeTokenCond shortShape (s.data.drop i) ||
    shapeTokenCond embedShape (s.data.drop i)

/-- Claim-side condition: the input is itself exactly eleven allowed
characters with no extra characters. -/
def specIsBareId (s : String) : Bool :=
  s.data.length == 11 && s.data.all allowedChar

/-- Condition forced by the counterexample: eleven allowed characters
followed by one trailing newline (also accepted by `^...$` in Python). -/
def specIsBareIdNl (s : String) : Bool :=
  (s.data.take 11).all allowedChar && s.data.drop 11 == ['\n']

lemma shapeTokenAt_eq_none_of_cond_false {shape cs : List Char}
    (h : shapeTokenCond shape cs = false) : shapeTokenAt shape cs = none := by
  unfold shapeTokenCond at h
  unfold shapeTokenAt
  split
  case isFalse => rfl
  case isTrue hsw =>
    split
    case isFalse => rfl
    case isTrue hc => rw [hsw, hc.1, hc.2] at h; simp at h

lemma matchShapesAt_eq_none_of_cond_false {cs : List Char}
    (h1 : shapeTokenCond watchShape cs = false)
    (h2 : shapeTokenCond shortShape cs = false)
    (h3 : shapeTokenCond embedShape cs = false) :
    matchShapesAt cs = none := by
  unfold matchShapesAt
  rw [shapeTokenAt_eq_none_of_cond_false h1,
    shapeTokenAt_eq_none_of_cond_false h2,
    shapeTokenAt_eq_none_of_cond_false h3]

lemma specHasShape_false_imp {s : String} (h : specHasShape s = false) :
    ∀ i, matchShapesAt (s.data.drop i) = none := by
  intro i
  by_cases hi : i < s.data.length
  · have hall := List.any_eq_false.mp h i (List.mem_range.mpr hi)
    rw [Bool.not_eq_true, Bool.or_eq_false_iff, Bool.or_eq_false_iff] at hall
    exact matchShapesAt_eq_none_of_cond_false hall.1.1 hall.1.2 hall.2
  · rw [List.drop_eq_nil_iff.mpr (by omega)]
    exact matchShapesAt_nil

lemma matchBareId_eq_none {s : String}
    (h2 : specIsBareId s = false) (h3 : specIsBareIdNl s = false) :
    matchBareId s.data = none := by
  unfold specIsBareId at h2
  unfold specIsBareIdNl at h3
  unfold matchBareId
  split
  case isTrue ha => rw [ha.1, ha.2] at h2; simp at h2
  case isFalse =>
    split
    case isTrue hb => rw [hb.1, hb.2] at h3; simp at h3
    case isFalse => rfl

lemma matchBareId_eq_some : ∀ {cs tok : List Char},
    matchBareId cs = some tok → tok.length = 11 := by
  intro cs tok h
  unfold matchBareId at h
  split at h
  case isTrue ha => injection h with h; rw [← h]; exact ha.1
  case isFalse =>
    split at h
    case isFalse => exact absurd h (by simp)
    case isTrue hb =>
      injection h with h
      have hd : (cs.drop 11).length = 1 := by rw [hb.2]; rfl
      rw [List.length_drop] at hd
      rw [← h, List.length_take]
      omega

lemma extract_video_id_ne_empty {url vid : String}
    (h : extract_video_id url = some vid) : vid ≠ "" := by
  unfold extract_video_id at h
  have hlen : vid.data.length = 11 := by
    cases hs : searchShapes url.data with
    | some tok =>
      rw [hs] at h; injection h with h; rw [← h]
      exact (searchShapes_eq_some hs).1
    | none =>
      rw [hs, Option.map_eq_some'] at h
      obtain ⟨tok, hm, htok⟩ := h
      rw [← htok]
      exact matchBareId_eq_some hm
  intro hc
  rw [hc] at hlen
  simp at hlen

/-! ### Lemmas about the fallback chain -/

/-- The auto-generated attempt as a single outcome: locating and fetching
the generated English transcript, `none` when either raises. -/
def autoAttempt (tl : TranscriptListing) : Option (List String) :=
  match tl.findGeneratedEn with
  | none => none
  | some t =>
    match t.fetch with
    | .error _ => none
    | .ok segs => some segs

lemma tryManualLoop_cons_none (tl : TranscriptListing) (lang : String)
    (rest : List String) (h : manualAttempt tl lang = none) :
    tryManualLoop tl (lang :: rest) = tryManualLoop tl rest := by
  cases hf : tl.findManual lang with
  | none => simp [tryManualLoop, hf]
  | some t =>
    cases he : t.fetch with
    | error msg => simp [tryManualLoop, hf, he]
    | ok segs => simp [manualAttempt, hf, he] at h

lemma tryManualLoop_cons_some (tl : TranscriptListing) (lang : String)
    (rest : List String) (segs : List String)
    (h : manualAttempt tl lang = some segs) :
    tryManualLoop tl (lang :: rest) = some (segs, lang) := by
  cases hf : tl.findManual lang with
  | none => simp [manualAttempt, hf] at h
  | some t =>
    cases he : t.fetch with
    | error msg => simp [manualAttempt, hf, he] at h
    | ok segs2 =>
      simp only [manualAttempt, hf, he, Option.some.injEq] at h
      simp [tryManualLoop, hf, he, h]

lemma tryManualLoop_eq_none (tl : TranscriptListing) (langs : List String)
    (h : ∀ lang ∈ langs, manualAttempt tl lang = none) :
    tryManualLoop tl langs = none := by
  induction langs with
  | nil => rfl
  | cons lang rest ih =>
    rw [tryManualLoop_cons_none tl lang rest (h lang (by simp))]
    exact ih fun l hl => h l (by simp [hl])

lemma autoBranch_of_attempt_none {tl : TranscriptListing}
    (h : autoAttempt tl = none) : autoBranch tl = lastResort tl := by
  cases hf : tl.findGeneratedEn with
  | none => simp [autoBranch, hf]
  | some t =>
    cases he : t.fetch with
    | error msg => simp [autoBranch, hf, he]
    | ok segs => simp [autoAttempt, hf, he] at h

/-- Every result of `get_transcript` is one of the two dict shapes of the
source: a failure dict or a success dict. -/
lemma get_transcript_shape (p : Provider) (url : String) :
    (∃ msg v, get_transcript p url = failureFields msg v) ∨
    (∃ vid segs lang, get_transcript p url = successFields vid segs lang) := by
  cases hx : extract_video_id url with
  | none =>
    exact Or.inl ⟨"Invalid YouTube URL or video ID", .null, by simp [get_transcript, hx]⟩
  | some vid =>
    by_cases hv : vid = ""
    · exact Or.inl ⟨"Invalid YouTube URL or video ID", .null, by simp [get_transcript, hx, hv]⟩
    · cases hl : p.list_transcripts vid with
      | error e => exact Or.inl ⟨e, .str vid, by simp [get_transcript, hx, hv, hl]⟩
      | ok tl =>
        cases hr : runChain tl with
        | error msg =>
          exact Or.inl ⟨"Could not fetch transcript: " ++ msg, .str vid,
            by simp [get_transcript, hx, hv, hl, hr]⟩
        | ok pair =>
          cases pair with
          | mk segs lang =>
            exact Or.inr ⟨vid, segs, lang, by simp [get_transcript, hx, hv, hl, hr]⟩

lemma objGet_failure_success (msg : String) (v : JsonVal) :
    objGet (failureFields msg v) "success" = some (.bool false) := rfl

lemma objGet_success_success (vid : String) (segs : List String) (lang : String) :
    objGet (successFields vid segs lang) "success" = some (.bool true) := rfl

/-! ### Claim C1 -/

/-- C1, counterexample: with a provider whose enumeration is empty (and
which locates no manual or generated transcript), `get_transcript` does
return a failure, but its error message is the caught-and-prefixed
`"Could not fetch transcript: No transcripts available"`, not exactly
`"No transcripts available"` as the claim states. -/
theorem c1_empty_enumeration_counterexample :
    get_transcript emptyProvider "dQw4w9WgXcQ" =
      failureFields "Could not fetch transcript: No transcripts available"
        (.str "dQw4w9WgXcQ") ∧
    objGet (get_transcript emptyProvider "dQw4w9WgXcQ") "error" =
      some (.str "Could not fetch transcript: No transcripts available") ∧
    "Could not fetch transcript: No transcripts available" ≠ "No transcripts available" :=
  ⟨rfl, rfl, by decide⟩

/-- C1, amended: when the id resolves, the listing succeeds, no manual
transcript is located in `en`/`en-US`/`en-GB`, no generated English
transcript is located, and the enumeration yields zero tracks,
`get_transcript` returns the failure dict whose error message is
`"Could not fetch transcript: No transcripts available"` (the raised
`"No transcripts available"` is caught by the inner handler and
prefixed). -/
theorem c1_empty_enumeration_message (p : Provider) (url vid : String)
    (tl : TranscriptListing)
    (h1 : extract_video_id url = some vid)
    (h2 : p.list_transcripts vid = .ok tl)
    (h3 : tl.findManual "en" = none)
    (h4 : tl.findManual "en-US" = none)
    (h5 : tl.findManual "en-GB" = none)
    (h6 : tl.findGeneratedEn = none)
    (h7 : tl.tracks = []) :
    get_transcript p url =
      failureFields "Could not fetch transcript: No transcripts available" (.str vid) := by
  have hvne := extract_video_id_ne_empty h1
  have hloop : tryManualLoop tl manualLangs = none := by
    apply tryManualLoop_eq_none
    intro lang hl
    simp only [manualLangs, List.mem_cons, List.mem_singleton] at hl
    rcases hl with rfl | rfl | hl
    · simp [manualAttempt, h3]
    · simp [manualAttempt, h4]
    · simp at hl; rw [hl]; simp [manualAttempt, h5]
  simp only [get_transcript, h1, if_neg hvne, h2, runChain, hloop, autoBranch, h6,
    lastResort, h7]
  rfl

/-- C1, witness for the amended theorem at the concrete empty provider. -/
theorem c1_empty_enumeration_message_witness :
    get_transcript emptyProvider "abcdefghijk" =
      failureFields "Could not fetch transcript: No transcripts available"
        (.str "abcdefghijk") :=
  c1_empty_enumeration_message emptyProvider "abcdefghijk" "abcdefghijk"
    emptyListing (by decide) rfl rfl rfl rfl rfl rfl

/-! ### Claim C2 -/

/-- C2, counterexample: the input `"abcdefghijk\n"` contains no URL shape
and is not itself exactly eleven allowed characters (it has a twelfth
character, a newline), yet `extract_video_id` does not signal failure: in
Python, `$` also matches just before a single trailing newline, so the
bare-id pattern accepts it and `get_transcript` proceeds to the provider
(here reaching the provider's `"No transcripts available"` path instead
of returning the invalid-URL failure). -/
theorem c2_invalid_input_counterexample :
    specHasShape "abcdefghijk\n" = false ∧
    specIsBareId "abcdefghijk\n" = false ∧
    extract_video_id "abcdefghijk\n" = some "abcdefghijk" ∧
    get_transcript emptyProvider "abcdefghijk\n" =
      failureFields "Could not fetch transcript: No transcripts available"
        (.str "abcdefghijk") :=
  ⟨by decide, by decide, by decide, rfl⟩

/-- C2, amended: for inputs that neither contain a known URL shape
followed by eleven allowed characters, nor are exactly eleven allowed
characters, nor are eleven allowed characters followed by one trailing
newline (the case Python's `$` also accepts), `extract_video_id` returns
`none` and `get_transcript` returns the invalid-URL failure dict with a
null `videoId` for every provider, i.e. without consulting it. -/
theorem c2_invalid_input_rejected (s : String)
    (h1 : specHasShape s = false)
    (h2 : specIsBareId s = false)
    (h3 : specIsBareIdNl s = false) :
    extract_video_id s = none ∧
    ∀ p : Provider,
      get_transcript p s = failureFields "Invalid YouTube URL or video ID" .null := by
  have hsearch : searchShapes s.data = none :=
    searchShapes_eq_none _ (specHasShape_false_imp h1)
  have hbare : matchBareId s.data = none := matchBareId_eq_none h2 h3
  have hex : extract_video_id s = none := by
    unfold extract_video_id
    rw [hsearch, hbare]
    rfl
  exact ⟨hex, fun p => by simp [get_transcript, hex]⟩

/-- C2, witness for the amended theorem at a concrete unmatchable input. -/
theorem c2_invalid_input_rejected_witness :
    specHasShape "not a url" = false ∧
    specIsBareId "not a url" = false ∧
    specIsBareIdNl "not a url" = false ∧
    extract_video_id "not a url" = none ∧
    get_transcript emptyProvider "not a url" =
      failureFields "Invalid YouTube URL or video ID" .null :=
  ⟨by decide, by decide, by decide,
   (c2_invalid_input_rejected "not a url" (by decide) (by decide) (by decide)).1,
   (c2_invalid_input_rejected "not a url" (by decide) (by decide) (by decide)).2
     emptyProvider⟩

/-! ### Claim C3 -/

/-- C3, counterexample: `gbEmptyListing` offers a manually authored
`en-GB` transcript (and neither `en` nor `en-US`), and that transcript
can be fetched — the fetch succeeds, with an empty segment list.  Yet
the returned language is `"en (auto-generated)"`, not `"en-GB"`: the
`if not transcript:` truthiness test treats the empty fetch as absent
and falls through to the auto-generated branch. -/
theorem c3_manual_priority_counterexample :
    gbEmptyListing.findManual "en" = none ∧
    gbEmptyListing.findManual "en-US" = none ∧
    gbEmptyListing.findManual "en-GB" = some gbEmptyTrack ∧
    gbEmptyTrack.fetch = .ok [] ∧
    get_transcript gbEmptyProvider "dQw4w9WgXcQ" =
      successFields "dQw4w9WgXcQ" ["hello world from auto"] "en (auto-generated)" ∧
    objGet (get_transcript gbEmptyProvider "dQw4w9WgXcQ") "language" =
      some (.str "en (auto-generated)") ∧
    "en (auto-generated)" ≠ "en-GB" :=
  ⟨rfl, rfl, rfl, rfl, rfl, rfl, by decide⟩

/-- C3, amended: the fetcher tries manually created transcripts in the
exact order `en`, `en-US`, `en-GB`, stopping at the first language whose
transcript can be fetched and, provided the fetched segment list is
nonempty, tagging the success result with that language code (a manual
transcript fetching to an empty segment list is discarded by the
truthiness test and the chain proceeds to the auto-generated branch
instead).  In particular, with a nonempty manually authored `en-GB`
transcript and neither `en` nor `en-US`, the returned language is
`"en-GB"`. -/
theorem c3_manual_priority (p : Provider) (url vid : String)
    (tl : TranscriptListing) (i : Fin manualLangs.length) (segs : List String)
    (h1 : extract_video_id url = some vid)
    (h2 : p.list_transcripts vid = .ok tl)
    (hprev : ∀ j : Fin manualLangs.length, j.val < i.val →
      manualAttempt tl (manualLangs.get j) = none)
    (hcur : manualAttempt tl (manualLangs.get i) = some segs)
    (hne : segs ≠ []) :
    get_transcript p url = successFields vid segs (manualLangs.get i) := by
  have hvne := extract_video_id_ne_empty h1
  have hemp : segs.isEmpty = false := by
    cases segs with
    | nil => exact absurd rfl hne
    | cons a as => rfl
  have hloop : tryManualLoop tl manualLangs = some (segs, manualLangs.get i) := by
    fin_cases i
    · exact tryManualLoop_cons_some tl "en" ["en-US", "en-GB"] segs hcur
    · show tryManualLoop tl ("en" :: ["en-US", "en-GB"]) = some (segs, "en-US")
      rw [tryManualLoop_cons_none tl "en" ["en-US", "en-GB"]
        (hprev ⟨0, by decide⟩ (by decide))]
      exact tryManualLoop_cons_some tl "en-US" ["en-GB"] segs hcur
    · show tryManualLoop tl ("en" :: ["en-US", "en-GB"]) = some (segs, "en-GB")
      rw [tryManualLoop_cons_none tl "en" ["en-US", "en-GB"]
          (hprev ⟨0, by decide⟩ (by decide)),
        tryManualLoop_cons_none tl "en-US" ["en-GB"]
          (hprev ⟨1, by decide⟩ (by decide))]
      exact tryManualLoop_cons_some tl "en-GB" [] segs hcur
  simp only [get_transcript, h1, if_neg hvne, h2, runChain, hloop, hemp,
    Bool.false_eq_true, if_false]

/-- C3, witness: a provider offering only a nonempty manually authored
`en-GB` transcript yields language `"en-GB"`. -/
theorem c3_manual_priority_witness :
    get_transcript gbProvider "dQw4w9WgXcQ" =
      successFields "dQw4w9WgXcQ" ["hello world"] "en-GB" :=
  c3_manual_priority gbProvider "dQw4w9WgXcQ" "dQw4w9WgXcQ" gbListing
    ⟨2, by decide⟩ ["hello world"] (by decide) rfl (by decide) rfl (by decide)

/-! ### Claim C4 -/

/-- C4: when no manual transcript in `en`/`en-US`/`en-GB` is obtained,
the auto-generated English transcript takes priority: if it can be
fetched, the result is a success tagged exactly `"en (auto-generated)"`;
only if locating or fetching it fails does the code fall back to the
first transcript in the provider's enumeration order, tagging the result
with that transcript's reported language code. -/
theorem c4_auto_then_first :
    (∀ (p : Provider) (url vid : String) (tl : TranscriptListing)
        (t : TranscriptTrack) (segs : List String),
      extract_video_id url = some vid →
      p.list_transcripts vid = .ok tl →
      (∀ lang ∈ manualLangs, manualAttempt tl lang = none) →
      tl.findGeneratedEn = some t →
      t.fetch = .ok segs →
      get_transcript p url = successFields vid segs "en (auto-generated)") ∧
    (∀ (p : Provider) (url vid : String) (tl : TranscriptListing)
        (t0 : TranscriptTrack) (rest : List TranscriptTrack) (segs : List String),
      extract_video_id url = some vid →
      p.list_transcripts vid = .ok tl →
      (∀ lang ∈ manualLangs, manualAttempt tl lang = none) →
      autoAttempt tl = none →
      tl.tracks = t0 :: rest →
      t0.fetch = .ok segs →
      get_transcript p url = successFields vid segs t0.language_code) := by
  constructor
  · intro p url vid tl t segs h1 h2 hman hgen hfe
    have hvne := extract_video_id_ne_empty h1
    have hloop := tryManualLoop_eq_none tl manualLangs hman
    simp only [get_transcript, h1, if_neg hvne, h2, runChain, hloop, autoBranch,
      hgen, hfe]
  · intro p url vid tl t0 rest segs h1 h2 hman hauto htr hfe
    have hvne := extract_video_id_ne_empty h1
    have hloop := tryManualLoop_eq_none tl manualLangs hman
    simp only [get_transcript, h1, if_neg hvne, h2, runChain, hloop,
      autoBranch_of_attempt_none hauto, lastResort, htr, hfe]

/-- C4, witness: an auto-only provider yields `"en (auto-generated)"`,
and a provider with only a French track yields language `"fr"`. -/
theorem c4_auto_then_first_witness :
    get_transcript autoOnlyProvider "dQw4w9WgXcQ" =
      successFields "dQw4w9WgXcQ" ["hello world from auto"] "en (auto-generated)" ∧
    get_transcript frProvider "dQw4w9WgXcQ" =
      successFields "dQw4w9WgXcQ" ["bonjour le monde"] "fr" :=
  ⟨c4_auto_then_first.1 autoOnlyProvider "dQw4w9WgXcQ" "dQw4w9WgXcQ" autoOnlyListing
      autoEnTrack ["hello world from auto"] (by decide) rfl (by decide) rfl rfl,
   c4_auto_then_first.2 frProvider "dQw4w9WgXcQ" "dQw4w9WgXcQ" frListing
      frTrack [] ["bonjour le monde"] (by decide) rfl (by decide) rfl rfl rfl⟩

/-! ### Claim C5 -/

/-- C5: for every input containing one of the known URL shapes
immediately followed by at least eleven characters of the allowed
alphabet, `extract_video_id` returns an eleven-character token of the
allowed alphabet standing immediately after such a shape occurrence in
the input. -/
theorem c5_url_shape_capture (s : String) (a shape b : List Char)
    (hshape : isUrlShape shape)
    (hs : s.data = a ++ shape ++ b)
    (hlen : 11 ≤ b.length)
    (hall : (b.take 11).all allowedChar = true) :
    ∃ tok : List Char,
      extract_video_id s = some (String.mk tok) ∧
      tok.length = 11 ∧ tok.all allowedChar = true ∧
      ∃ a2 shape2 rest2, isUrlShape shape2 ∧ s.data = a2 ++ shape2 ++ tok ++ rest2 := by
  have hms : (matchShapesAt (shape ++ b)).isSome :=
    matchShapesAt_isSome hshape b rfl hlen hall
  have hss : (searchShapes s.data).isSome := by
    rw [hs, List.append_assoc]
    exact searchShapes_append_isSome a (shape ++ b) hms
  obtain ⟨tok, htok⟩ := Option.isSome_iff_exists.mp hss
  obtain ⟨hl, ha, a2, shape2, rest2, hsh2, hdec⟩ := searchShapes_eq_some htok
  refine ⟨tok, ?_, hl, ha, a2, shape2, rest2, hsh2, hdec⟩
  unfold extract_video_id
  rw [htok]

/-- C5, witness at a concrete short-form URL. -/
theorem c5_url_shape_capture_witness :
    isUrlShape shortShape ∧
    ∃ tok : List Char,
      extract_video_id "https://youtu.be/dQw4w9WgXcQ" = some (String.mk tok) ∧
      tok.length = 11 ∧ tok.all allowedChar = true ∧
      ∃ a2 shape2 rest2, isUrlShape shape2 ∧
        ("https://youtu.be/dQw4w9WgXcQ").data = a2 ++ shape2 ++ tok ++ rest2 :=
  ⟨Or.inr (Or.inl rfl),
   c5_url_shape_capture "https://youtu.be/dQw4w9WgXcQ" "https://".data shortShape
     "dQw4w9WgXcQ".data (Or.inr (Or.inl rfl)) rfl (by decide) (by decide)⟩

/-! ### Claim C6 -/

/-- C6: on every successful result, the `wordCount` field equals the
number of whitespace-delimited tokens of the `transcript` field returned
in the same result. -/
theorem c6_word_count (p : Provider) (url : String)
    (hs : objGet (get_transcript p url) "success" = some (.bool true)) :
    ∃ t : String,
      objGet (get_transcript p url) "transcript" = some (.str t) ∧
      objGet (get_transcript p url) "wordCount" =
        some (.num ((pySplit t).length : Int)) := by
  rcases get_transcript_shape p url with ⟨msg, v, hf⟩ | ⟨vid, segs, lang, hsucc⟩
  · rw [hf, objGet_failure_success] at hs
    exact absurd hs (by simp)
  · rw [hsucc]
    exact ⟨formatTranscript segs, rfl, rfl⟩

/-- C6, witness at a concrete success: "hello world from auto" flattens
to itself and counts four words. -/
theorem c6_word_count_witness :
    objGet (get_transcript autoOnlyProvider "dQw4w9WgXcQ") "success" =
      some (.bool true) ∧
    ∃ t : String,
      objGet (get_transcript autoOnlyProvider "dQw4w9WgXcQ") "transcript" =
        some (.str t) ∧
      objGet (get_transcript autoOnlyProvider "dQw4w9WgXcQ") "wordCount" =
        some (.num ((pySplit t).length : Int)) :=
  ⟨rfl, c6_word_count autoOnlyProvider "dQw4w9WgXcQ" rfl⟩

/-! ### Claim C7 -/

/-- C7: every result of `get_transcript`, for every input and provider
behaviour, carries a boolean `success` entry; the `error` entry is
present exactly when `success` is false, and the `transcript`,
`language`, `wordCount` and `videoTitle` entries are present exactly when
`success` is true. -/
theorem c7_result_invariant (p : Provider) (url : String) :
    ∃ b : Bool,
      objGet (get_transcript p url) "success" = some (.bool b) ∧
      hasKey (get_transcript p url) "error" = !b ∧
      hasKey (get_transcript p url) "transcript" = b ∧
      hasKey (get_transcript p url) "language" = b ∧
      hasKey (get_transcript p url) "wordCount" = b ∧
      hasKey (get_transcript p url) "videoTitle" = b := by
  rcases get_transcript_shape p url with ⟨msg, v, hf⟩ | ⟨vid, segs, lang, hsucc⟩
  · refine ⟨false, ?_⟩
    rw [hf]
    exact ⟨rfl, rfl, rfl, rfl, rfl, rfl⟩
  · refine ⟨true, ?_⟩
    rw [hsucc]
    exact ⟨rfl, rfl, rfl, rfl, rfl, rfl⟩

/-! ### Claim C8 -/

/-- C8: a POST request whose JSON body lacks the `youtubeUrl` field, or
carries it as the empty string, is answered with the fixed 400 response
`{"error": "youtubeUrl is required"}`; the response is the same for
every provider, so `get_transcript` is never invoked. -/
theorem c8_missing_url (p : Provider) (jsonLoads : String → Option JsonVal)
    (event : Event) (fields : List (String × JsonVal))
    (hm : event.httpMethod = some "POST")
    (hp : jsonLoads (event.body.getD "\x7b\x7d") = some (.obj fields))
    (hu : objGet fields "youtubeUrl" = none ∨
      objGet fields "youtubeUrl" = some (.str "")) :
    handler p jsonLoads event = badRequestResp := by
  rcases hu with hu | hu <;>
    simp [handler, hm, hp, hu, jsonTruthy]

/-- C8, witness: a concrete parse yielding an empty JSON object. -/
theorem c8_missing_url_witness :
    handler emptyProvider (fun _ => some (.obj []))
      { httpMethod := some "POST", body := some "\x7b\x7d" } = badRequestResp :=
  c8_missing_url emptyProvider (fun _ => some (.obj []))
    { httpMethod := some "POST", body := some "\x7b\x7d" } [] rfl rfl (Or.inl rfl)

/-! ### Claim C9 -/

/-- C9: every response of the handler — preflight, method rejection, bad
request, success, pipeline failure, or internal error — carries the three
fixed cross-origin headers. -/
theorem c9_cors_always (p : Provider) (jsonLoads : String → Option JsonVal)
    (event : Event) :
    ("Access-Control-Allow-Origin", "*") ∈ (handler p jsonLoads event).headers ∧
    ("Access-Control-Allow-Methods", "POST, OPTIONS") ∈
      (handler p jsonLoads event).headers ∧
    ("Access-Control-Allow-Headers", "Content-Type") ∈
      (handler p jsonLoads event).headers := by
  unfold handler
  repeat' split
  all_goals
    exact ⟨by simp [corsHeaders, contentTypeJson, badRequestResp, internalErrorResp],
      by simp [corsHeaders, contentTypeJson, badRequestResp, internalErrorResp],
      by simp [corsHeaders, contentTypeJson, badRequestResp, internalErrorResp]⟩

/-! ### Claim C10 -/

/-- C10: a POST event whose body the JSON parser rejects is answered by
the outermost handler with the 500 response
`{"error": "Internal server error"}` — not a 400 input-error response —
and the response is the same for every provider, so `get_transcript` is
never invoked. -/
theorem c10_bad_json (p : Provider) (jsonLoads : String → Option JsonVal)
    (event : Event)
    (hm : event.httpMethod = some "POST")
    (hp : jsonLoads (event.body.getD "\x7b\x7d") = none) :
    handler p jsonLoads event = internalErrorResp := by
  simp [handler, hm, hp]

/-- C10, witness: a concrete parse failure. -/
theorem c10_bad_json_witness :
    handler emptyProvider (fun _ => none)
      { httpMethod := some "POST", body := some "not json" } = internalErrorResp :=
  c10_bad_json emptyProvider (fun _ => none)
    { httpMethod := some "POST", body := some "not json" } rfl rfl

/-! ### Sanity checks of the embedding on concrete inputs -/

example : extract_video_id "dQw4w9WgXcQ" = some "dQw4w9WgXcQ" := by decide
example : extract_video_id "https://youtu.be/dQw4w9WgXcQ" = some "dQw4w9WgXcQ" := by decide
example : extract_video_id "https://youtube.com/watch?v=dQw4w9WgXcQ&t=1" = some "dQw4w9WgXcQ" := by
  decide
example : extract_video_id "hello" = none := by decide
example : extract_video_id "abcdefghij!" = none := by decide
example : pySplit "hello world foo" = ["hello", "world", "foo"] := by decide
example : (pySplit (formatTranscript ["hello world", "foo"])).length = 3 := by decide
example : get_transcript gbEmptyProvider "dQw4w9WgXcQ" =
    successFields "dQw4w9WgXcQ" ["hello world from auto"] "en (auto-generated)" := rfl
